import Mathlib

/-!
Verification of `build_demosaic_nb.py`.

The script is a straight-line Python program:

  with open('CP-Math-Demosaic.ipynb', 'r') as f:
      notebook = json.load(f)
  cells = notebook["cells"]
  print(f"Starting with {len(cells)} cell(s)")

We embed it as a pure function of a filesystem model.  `json.load` is
Python standard-library code, so it is taken as a parameter
`parse : String → Option JValue`: `parse c = some v` means the text `c`
is valid JSON denoting `v`, `parse c = none` means the text is not valid
JSON (a `json.JSONDecodeError` is raised).  Everything else — the dict
lookup `notebook["cells"]`, Python's `len`, the `with`-scoped file
handle, the printed line — is embedded directly from the source.
-/

/-- A JSON value as produced by Python's `json.load`: `None`, `bool`,
numbers, `str`, `list`, or `dict` (an object, kept as an ordered list of
key/value pairs; a later duplicate key overwrites an earlier one, as in
a Python dict built by the parser). -/
inductive JValue where
  | null : JValue
  | bool (b : Bool) : JValue
  | num (n : Int) : JValue
  | str (s : String) : JValue
  | arr (elems : List JValue) : JValue
  | obj (fields : List (String × JValue)) : JValue

/-- Python errors the script can raise (none are caught). -/
inductive PyError where
  | fileNotFound : PyError
  | jsonDecodeError : PyError
  | keyError : PyError
  | typeError : PyError
  deriving Repr, DecidableEq

/-- Dict lookup on the field list of a JSON object.  A later binding of
the same key shadows an earlier one, matching how `json.load` builds a
Python dict. -/
def lookupField : List (String × JValue) → String → Option JValue
  | [], _ => none
  | (k, v) :: rest, key =>
    match lookupField rest key with
    | some w => some w
    | none => if k == key then some v else none

/-- Python subscript `v[key]` with a string key: succeeds only on a dict
(`KeyError` when the key is absent); any other value raises `TypeError`
(`list`/`str` demand integer indices, the rest are not subscriptable). -/
def pySubscript (v : JValue) (key : String) : Except PyError JValue :=
  match v with
  | .obj fields =>
    match lookupField fields key with
    | some x => .ok x
    | none => .error .keyError
  | _ => .error .typeError

/-- Python `len`: defined on `list` (element count), `str` (code-point
count) and `dict` (distinct-key count); `TypeError` (`none`) on `None`,
`bool` and numbers. -/
def pyLen : JValue → Option Nat
  | .arr xs => some xs.length
  | .str s => some s.length
  | .obj fields => some ((fields.map Prod.fst).eraseDups.length)
  | _ => none

/-- The filesystem: an association list from file names to contents. -/
abbrev FS : Type := List (String × String)

/-- Reading a file: the contents of the first entry with that name. -/
def fsRead (fs : FS) (name : String) : Option String :=
  (fs.find? (fun p => p.1 == name)).map Prod.snd

/-- The hard-coded input file name from line 5 of the script. -/
def scriptFileName : String := "CP-Math-Demosaic.ipynb"

/-- The success line printed on line 14 of the script,
`f"Starting with {len(cells)} cell(s)"`. -/
def startingLine (n : Nat) : String :=
  "Starting with " ++ toString n ++ " cell(s)"

/-- `with open(name, 'r') as f: body` — opening acquires a handle for
`name`; whether `body` returns or raises, the handle is released when
control leaves the block.  If the open itself fails (file missing) no
handle is ever acquired.  Returns the handle set after the statement and
the body's outcome. -/
def withOpen (fs : FS) (name : String) (handles : List String)
    (body : String → Except PyError JValue) :
    List String × Except PyError JValue :=
  match fsRead fs name with
  | none => (handles, .error .fileNotFound)
  | some contents => ((name :: handles).erase name, body contents)

/-- The observable outcome of one run of the script. -/
structure RunResult where
  stdout : List String
  exitCode : Nat
  fs : FS
  openHandles : List String
  error : Option PyError
  deriving DecidableEq

/-- The whole script, embedded line by line.  `parse` stands for
`json.load`; `argv` and `env` are the process argument vector and
environment, which the source never reads; `fs` is the filesystem.  The
script opens `CP-Math-Demosaic.ipynb` inside a `with` block, parses it,
looks up `notebook["cells"]`, takes `len(cells)` and prints the line.
Any raised error is uncaught: the process exits with status 1 and the
filesystem is never written. -/
def runScript (parse : String → Option JValue) (argv : List String)
    (env : List (String × String)) (fs : FS) : RunResult :=
  match withOpen fs scriptFileName []
      (fun contents =>
        match parse contents with
        | none => .error .jsonDecodeError
        | some v => .ok v) with
  | (handles, .error e) =>
    { stdout := [], exitCode := 1, fs := fs, openHandles := handles,
      error := some e }
  | (handles, .ok notebook) =>
    match pySubscript notebook "cells" with
    | .error e =>
      { stdout := [], exitCode := 1, fs := fs, openHandles := handles,
        error := some e }
    | .ok cells =>
      match pyLen cells with
      | none =>
        { stdout := [], exitCode := 1, fs := fs, openHandles := handles,
          error := some PyError.typeError }
      | some n =>
        { stdout := [startingLine n], exitCode := 0, fs := fs,
          openHandles := handles, error := none }

/-- C1: for every input file whose contents are a valid JSON object with
a top-level `cells` field holding a sequence of length N, the script
prints exactly one line `Starting with N cell(s)` and exits with status
zero. -/
theorem c1_valid_notebook_prints_count
    (parse : String → Option JValue) (argv : List String)
    (env : List (String × String)) (fs : FS) (c : String)
    (flds : List (String × JValue)) (xs : List JValue)
    (hfile : fsRead fs scriptFileName = some c)
    (hjson : parse c = some (JValue.obj flds))
    (hcells : lookupField flds "cells" = some (JValue.arr xs)) :
    (runScript parse argv env fs).stdout = [startingLine xs.length] ∧
    (runScript parse argv env fs).exitCode = 0 := by
  simp [runScript, withOpen, hfile, hjson, pySubscript, hcells, pyLen]

/-- C1 witness: the concrete notebook text parsed as `\x7b"cells": []\x7d`
makes the script print `Starting with 0 cell(s)` and exit 0. -/
theorem c1_valid_notebook_prints_count_witness :
    (runScript (fun _ => some (JValue.obj [("cells", JValue.arr [])]))
        [] [] [(scriptFileName, "nb")]).stdout = [startingLine 0] ∧
    (runScript (fun _ => some (JValue.obj [("cells", JValue.arr [])]))
        [] [] [(scriptFileName, "nb")]).exitCode = 0 :=
  c1_valid_notebook_prints_count
    (fun _ => some (JValue.obj [("cells", JValue.arr [])])) [] []
    [(scriptFileName, "nb")] "nb" [("cells", JValue.arr [])] []
    rfl rfl rfl

/-- C2: for every input file whose contents are a valid JSON object with
no top-level `cells` field, the dict lookup raises an uncaught KeyError:
the process exits nonzero and prints no line. -/
theorem c2_missing_cells_uncaught_key_error
    (parse : String → Option JValue) (argv : List String)
    (env : List (String × String)) (fs : FS) (c : String)
    (flds : List (String × JValue))
    (hfile : fsRead fs scriptFileName = some c)
    (hjson : parse c = some (JValue.obj flds))
    (hcells : lookupField flds "cells" = none) :
    (runScript parse argv env fs).exitCode = 1 ∧
    (runScript parse argv env fs).stdout = [] ∧
    (runScript parse argv env fs).error = some PyError.keyError := by
  simp [runScript, withOpen, hfile, hjson, pySubscript, hcells]

/-- C2 witness: the empty JSON object as notebook. -/
theorem c2_missing_cells_uncaught_key_error_witness :
    (runScript (fun _ => some (JValue.obj [])) [] []
        [(scriptFileName, "nb")]).exitCode = 1 ∧
    (runScript (fun _ => some (JValue.obj [])) [] []
        [(scriptFileName, "nb")]).stdout = [] ∧
    (runScript (fun _ => some (JValue.obj [])) [] []
        [(scriptFileName, "nb")]).error = some PyError.keyError :=
  c2_missing_cells_uncaught_key_error (fun _ => some (JValue.obj []))
    [] [] [(scriptFileName, "nb")] "nb" [] rfl rfl rfl

/-- C3: for every input file whose contents are not valid JSON text, the
parse raises an uncaught JSONDecodeError: the process exits nonzero and
prints no line. -/
theorem c3_invalid_json_uncaught_parse_error
    (parse : String → Option JValue) (argv : List String)
    (env : List (String × String)) (fs : FS) (c : String)
    (hfile : fsRead fs scriptFileName = some c)
    (hjson : parse c = none) :
    (runScript parse argv env fs).exitCode = 1 ∧
    (runScript parse argv env fs).stdout = [] ∧
    (runScript parse argv env fs).error = some PyError.jsonDecodeError := by
  simp [runScript, withOpen, hfile, hjson]

/-- C3 witness: a file whose text no parse accepts. -/
theorem c3_invalid_json_uncaught_parse_error_witness :
    (runScript (fun _ => none) [] []
        [(scriptFileName, "not json")]).exitCode = 1 ∧
    (runScript (fun _ => none) [] []
        [(scriptFileName, "not json")]).stdout = [] ∧
    (runScript (fun _ => none) [] []
        [(scriptFileName, "not json")]).error =
      some PyError.jsonDecodeError :=
  c3_invalid_json_uncaught_parse_error (fun _ => none) [] []
    [(scriptFileName, "not json")] "not json" rfl rfl

/-- C4: when no file named `CP-Math-Demosaic.ipynb` exists, `open`
raises an uncaught FileNotFoundError: the process exits nonzero and
prints no success line. -/
theorem c4_missing_file_uncaught_error
    (parse : String → Option JValue) (argv : List String)
    (env : List (String × String)) (fs : FS)
    (hfile : fsRead fs scriptFileName = none) :
    (runScript parse argv env fs).exitCode = 1 ∧
    (runScript parse argv env fs).stdout = [] ∧
    (runScript parse argv env fs).error = some PyError.fileNotFound := by
  simp [runScript, withOpen, hfile]

/-- C4 witness: the empty filesystem. -/
theorem c4_missing_file_uncaught_error_witness :
    (runScript (fun _ => none) [] [] []).exitCode = 1 ∧
    (runScript (fun _ => none) [] [] []).stdout = [] ∧
    (runScript (fun _ => none) [] [] []).error =
      some PyError.fileNotFound :=
  c4_missing_file_uncaught_error (fun _ => none) [] [] [] rfl

/-- C5 counterexample: a notebook whose `cells` field is a JSON object
(a Python dict, not an ordered sequence).  The claim demands an uncaught
schema error and a nonzero exit, but Python's `len` is defined on dicts:
the script prints `Starting with 2 cell(s)` and exits with status 0. -/
theorem c5_wrong_type_counterexample :
    (runScript
        (fun _ => some (JValue.obj
          [("cells", JValue.obj [("a", JValue.null), ("b", JValue.null)])]))
        [] [] [(scriptFileName, "nb")]).exitCode = 0 ∧
    (runScript
        (fun _ => some (JValue.obj
          [("cells", JValue.obj [("a", JValue.null), ("b", JValue.null)])]))
        [] [] [(scriptFileName, "nb")]).stdout = [startingLine 2] :=
  ⟨rfl, rfl⟩

/-- C5 amended: only a `cells` value on which Python's `len` is
undefined — JSON null, a boolean, or a number — makes the script raise
an uncaught TypeError, exit nonzero and print nothing; a string or
object value is instead accepted and its length printed. -/
theorem c5_unsized_cells_uncaught_type_error
    (parse : String → Option JValue) (argv : List String)
    (env : List (String × String)) (fs : FS) (c : String)
    (flds : List (String × JValue)) (v : JValue)
    (hfile : fsRead fs scriptFileName = some c)
    (hjson : parse c = some (JValue.obj flds))
    (hcells : lookupField flds "cells" = some v)
    (hty : v = JValue.null ∨ (∃ b, v = JValue.bool b) ∨
      ∃ n, v = JValue.num n) :
    (runScript parse argv env fs).exitCode = 1 ∧
    (runScript parse argv env fs).stdout = [] ∧
    (runScript parse argv env fs).error = some PyError.typeError := by
  rcases hty with rfl | ⟨b, rfl⟩ | ⟨n, rfl⟩ <;>
    simp [runScript, withOpen, hfile, hjson, pySubscript, hcells, pyLen]

/-- C5 amended witness: a notebook whose `cells` field is JSON null. -/
theorem c5_unsized_cells_uncaught_type_error_witness :
    (runScript (fun _ => some (JValue.obj [("cells", JValue.null)]))
        [] [] [(scriptFileName, "nb")]).exitCode = 1 ∧
    (runScript (fun _ => some (JValue.obj [("cells", JValue.null)]))
        [] [] [(scriptFileName, "nb")]).stdout = [] ∧
    (runScript (fun _ => some (JValue.obj [("cells", JValue.null)]))
        [] [] [(scriptFileName, "nb")]).error = some PyError.typeError :=
  c5_unsized_cells_uncaught_type_error
    (fun _ => some (JValue.obj [("cells", JValue.null)])) [] []
    [(scriptFileName, "nb")] "nb" [("cells", JValue.null)] JValue.null
    rfl rfl rfl (Or.inl rfl)

/-- Helper: no branch of the script writes the filesystem. -/
theorem runScript_fs_preserved (parse : String → Option JValue)
    (argv : List String) (env : List (String × String)) (fs : FS) :
    (runScript parse argv env fs).fs = fs := by
  cases hf : fsRead fs scriptFileName with
  | none => simp [runScript, withOpen, hf]
  | some c =>
    cases hp : parse c with
    | none => simp [runScript, withOpen, hf, hp]
    | some nb =>
      cases hs : pySubscript nb "cells" with
      | error e => simp [runScript, withOpen, hf, hp, hs]
      | ok cells =>
        cases hl : pyLen cells with
        | none => simp [runScript, withOpen, hf, hp, hs, hl]
        | some n => simp [runScript, withOpen, hf, hp, hs, hl]

/-- Helper: the script prints at most one line. -/
theorem runScript_stdout_short (parse : String → Option JValue)
    (argv : List String) (env : List (String × String)) (fs : FS) :
    (runScript parse argv env fs).stdout.length ≤ 1 := by
  cases hf : fsRead fs scriptFileName with
  | none => simp [runScript, withOpen, hf]
  | some c =>
    cases hp : parse c with
    | none => simp [runScript, withOpen, hf, hp]
    | some nb =>
      cases hs : pySubscript nb "cells" with
      | error e => simp [runScript, withOpen, hf, hp, hs]
      | ok cells =>
        cases hl : pyLen cells with
        | none => simp [runScript, withOpen, hf, hp, hs, hl]
        | some n => simp [runScript, withOpen, hf, hp, hs, hl]

/-- C6: the script is a deterministic, side-effect-free function of the
input file: a run leaves the filesystem exactly as it found it, so a
second run over the resulting filesystem returns the identical result. -/
theorem c6_idempotent_reruns (parse : String → Option JValue)
    (argv : List String) (env : List (String × String)) (fs : FS) :
    (runScript parse argv env fs).fs = fs ∧
    runScript parse argv env ((runScript parse argv env fs).fs) =
      runScript parse argv env fs := by
  refine ⟨runScript_fs_preserved parse argv env fs, ?_⟩
  rw [runScript_fs_preserved parse argv env fs]

/-- C7: on every execution path the script writes no file — the final
filesystem equals the initial one — and prints at most one line. -/
theorem c7_read_only_frame (parse : String → Option JValue)
    (argv : List String) (env : List (String × String)) (fs : FS) :
    (runScript parse argv env fs).fs = fs ∧
    (runScript parse argv env fs).stdout.length ≤ 1 :=
  ⟨runScript_fs_preserved parse argv env fs,
    runScript_stdout_short parse argv env fs⟩

/-- C8: the observable behaviour depends on no command-line argument or
environment variable, and on the filesystem only through the file with
the literal name `CP-Math-Demosaic.ipynb`: two invocations whose
filesystems agree on that one name, whatever their argument vectors and
environments, print the same output, exit with the same status and raise
the same error. -/
theorem c8_only_named_file_matters (parse : String → Option JValue)
    (argv argv' : List String) (env env' : List (String × String))
    (fs fs' : FS)
    (h : fsRead fs scriptFileName = fsRead fs' scriptFileName) :
    (runScript parse argv env fs).stdout =
      (runScript parse argv' env' fs').stdout ∧
    (runScript parse argv env fs).exitCode =
      (runScript parse argv' env' fs').exitCode ∧
    (runScript parse argv env fs).error =
      (runScript parse argv' env' fs').error := by
  cases hf : fsRead fs' scriptFileName with
  | none => simp [runScript, withOpen, h, hf]
  | some c =>
    cases hp : parse c with
    | none => simp [runScript, withOpen, h, hf, hp]
    | some nb =>
      cases hs : pySubscript nb "cells" with
      | error e => simp [runScript, withOpen, h, hf, hp, hs]
      | ok cells =>
        cases hl : pyLen cells with
        | none => simp [runScript, withOpen, h, hf, hp, hs, hl]
        | some n => simp [runScript, withOpen, h, hf, hp, hs, hl]

/-- C8 witness: an extra unrelated file and different argv and env leave
output, exit status and error unchanged. -/
theorem c8_only_named_file_matters_witness :
    (runScript (fun _ => none) [] [] [(scriptFileName, "nb")]).stdout =
      (runScript (fun _ => none) ["--flag"] [("HOME", "/x")]
        [("other.txt", "zzz"), (scriptFileName, "nb")]).stdout ∧
    (runScript (fun _ => none) [] [] [(scriptFileName, "nb")]).exitCode =
      (runScript (fun _ => none) ["--flag"] [("HOME", "/x")]
        [("other.txt", "zzz"), (scriptFileName, "nb")]).exitCode ∧
    (runScript (fun _ => none) [] [] [(scriptFileName, "nb")]).error =
      (runScript (fun _ => none) ["--flag"] [("HOME", "/x")]
        [("other.txt", "zzz"), (scriptFileName, "nb")]).error :=
  c8_only_named_file_matters (fun _ => none) [] ["--flag"] []
    [("HOME", "/x")] [(scriptFileName, "nb")]
    [("other.txt", "zzz"), (scriptFileName, "nb")] rfl

/-- C9: the output depends only on the length of the `cells` sequence:
two valid notebook objects whose `cells` arrays have equal length give
identical standard output and exit status, whatever the cells hold and
whatever other fields either notebook has. -/
theorem c9_output_depends_only_on_cell_count
    (parse parseB : String → Option JValue)
    (argv argvB : List String) (env envB : List (String × String))
    (fs fsB : FS) (c cB : String)
    (flds fldsB : List (String × JValue)) (xs ys : List JValue)
    (hfile : fsRead fs scriptFileName = some c)
    (hjson : parse c = some (JValue.obj flds))
    (hcells : lookupField flds "cells" = some (JValue.arr xs))
    (hfileB : fsRead fsB scriptFileName = some cB)
    (hjsonB : parseB cB = some (JValue.obj fldsB))
    (hcellsB : lookupField fldsB "cells" = some (JValue.arr ys))
    (hlen : xs.length = ys.length) :
    (runScript parse argv env fs).stdout =
      (runScript parseB argvB envB fsB).stdout ∧
    (runScript parse argv env fs).exitCode =
      (runScript parseB argvB envB fsB).exitCode := by
  simp [runScript, withOpen, hfile, hjson, pySubscript, hcells, hfileB,
    hjsonB, hcellsB, pyLen, hlen]

/-- C9 witness: one notebook with a markdown-like cell and an extra
field, another with a different cell, both of length one, give the same
output. -/
theorem c9_output_depends_only_on_cell_count_witness :
    (runScript
        (fun _ => some (JValue.obj
          [("cells", JValue.arr [JValue.str "md"]),
           ("metadata", JValue.obj [])])) [] []
        [(scriptFileName, "a")]).stdout =
      (runScript
        (fun _ => some (JValue.obj [("cells", JValue.arr [JValue.null])]))
        [] [] [(scriptFileName, "b")]).stdout ∧
    (runScript
        (fun _ => some (JValue.obj
          [("cells", JValue.arr [JValue.str "md"]),
           ("metadata", JValue.obj [])])) [] []
        [(scriptFileName, "a")]).exitCode =
      (runScript
        (fun _ => some (JValue.obj [("cells", JValue.arr [JValue.null])]))
        [] [] [(scriptFileName, "b")]).exitCode :=
  c9_output_depends_only_on_cell_count
    (fun _ => some (JValue.obj
      [("cells", JValue.arr [JValue.str "md"]),
       ("metadata", JValue.obj [])]))
    (fun _ => some (JValue.obj [("cells", JValue.arr [JValue.null])]))
    [] [] [] [] [(scriptFileName, "a")] [(scriptFileName, "b")] "a" "b"
    [("cells", JValue.arr [JValue.str "md"]), ("metadata", JValue.obj [])]
    [("cells", JValue.arr [JValue.null])]
    [JValue.str "md"] [JValue.null] rfl rfl rfl rfl rfl rfl rfl

/-- C10: on every execution path — success, parse error, lookup error or
missing file — no file handle remains held when the script ends: the
`with` block releases the handle it acquired, and a failed `open`
acquires none. -/
theorem c10_handle_always_released (parse : String → Option JValue)
    (argv : List String) (env : List (String × String)) (fs : FS) :
    (runScript parse argv env fs).openHandles = [] := by
  cases hf : fsRead fs scriptFileName with
  | none => simp [runScript, withOpen, hf]
  | some c =>
    cases hp : parse c with
    | none => simp [runScript, withOpen, hf, hp]
    | some nb =>
      cases hs : pySubscript nb "cells" with
      | error e => simp [runScript, withOpen, hf, hp, hs]
      | ok cells =>
        cases hl : pyLen cells with
        | none => simp [runScript, withOpen, hf, hp, hs, hl]
        | some n => simp [runScript, withOpen, hf, hp, hs, hl]
